import Mathlib

/-!
Verification of the interaction gateway handler in `src/server.js`
(a Cloudflare-worker Discord webhook endpoint).

The handler is shallowly embedded: JavaScript values flowing through the
handler are modelled by `JsonValue`, HTTP responses by `HttpResponse`, and
the two external collaborators that are not part of this repository's
source — the platform's `JSON.parse` and the `discord-interactions`
library's `verifyKey` — are passed in as parameters (`parse`, `vk`).
A JavaScript runtime exception (a `TypeError` from reading a property of
`undefined`/`null`, or calling `toLowerCase` on a non-string) is modelled
by the handler returning `none`.
-/

/-- A JSON value as produced by `JSON.parse` (numbers restricted to
integers, which suffices for the discriminants the handler inspects). -/
inductive JsonValue where
  | jnull : JsonValue
  | jbool : Bool → JsonValue
  | jnum : Int → JsonValue
  | jstr : String → JsonValue
  | jarr : List JsonValue → JsonValue
  | jobj : List (String × JsonValue) → JsonValue
deriving Repr

/-- First binding of a key in an object's field list (JavaScript object
property lookup). -/
def lookupField : List (String × JsonValue) → String → Option JsonValue
  | [], _ => none
  | (k, v) :: rest, key => if k = key then some v else lookupField rest key

/-- JavaScript property read `v[key]`: defined (`some`) only on objects
that carry the key; every other read yields `undefined` (`none`).
Reads on `null`/`undefined` receivers are handled at each call site,
where they raise a `TypeError`. -/
def jget : JsonValue → String → Option JsonValue
  | .jobj fields, key => lookupField fields key
  | _, _ => none

/-- JavaScript truthiness of a parsed JSON value: `null`, `false`, `0`
and `""` are falsy; arrays and objects are always truthy. -/
def truthy : JsonValue → Bool
  | .jnull => false
  | .jbool b => b
  | .jnum n => n != 0
  | .jstr s => s != ""
  | .jarr _ => true
  | .jobj _ => true

/-- Escape one character for a JSON string literal. -/
def escapeJsonChar (c : Char) : String :=
  if c = '"' then "\\\""
  else if c = '\\' then "\\\\"
  else if c = '\n' then "\\n"
  else if c = '\r' then "\\r"
  else if c = '\t' then "\\t"
  else String.singleton c

/-- Escape a string for inclusion in JSON output. -/
def escapeJsonString (s : String) : String :=
  String.join (s.toList.map escapeJsonChar)

mutual

/-- The platform's `JSON.stringify` on parsed JSON values. -/
def jsonStringify : JsonValue → String
  | .jnull => "null"
  | .jbool true => "true"
  | .jbool false => "false"
  | .jnum n => toString n
  | .jstr s => "\"" ++ escapeJsonString s ++ "\""
  | .jarr xs => "[" ++ jsonStringifyList xs ++ "]"
  | .jobj fs => "\x7b" ++ jsonStringifyFields fs ++ "\x7d"

/-- Comma-separated serialisation of an array's elements. -/
def jsonStringifyList : List JsonValue → String
  | [] => ""
  | [x] => jsonStringify x
  | x :: xs => jsonStringify x ++ "," ++ jsonStringifyList xs

/-- Comma-separated serialisation of an object's fields. -/
def jsonStringifyFields : List (String × JsonValue) → String
  | [] => ""
  | [(k, v)] => "\"" ++ escapeJsonString k ++ "\":" ++ jsonStringify v
  | (k, v) :: fs =>
      "\"" ++ escapeJsonString k ++ "\":" ++ jsonStringify v ++ "," ++
        jsonStringifyFields fs

end

namespace InteractionType

/-- Constant `InteractionType.PING` from `discord-interactions`. -/
def PING : Int := 1

/-- Constant `InteractionType.APPLICATION_COMMAND` from `discord-interactions`. -/
def APPLICATION_COMMAND : Int := 2

/-- Constant `InteractionType.MESSAGE_COMPONENT` from `discord-interactions`. -/
def MESSAGE_COMPONENT : Int := 3

/-- Constant `InteractionType.MODAL_SUBMIT` from `discord-interactions`. -/
def MODAL_SUBMIT : Int := 5

end InteractionType

namespace InteractionResponseType

/-- Constant `InteractionResponseType.PONG` from `discord-interactions`. -/
def PONG : Int := 1

/-- Constant `InteractionResponseType.CHANNEL_MESSAGE_WITH_SOURCE`. -/
def CHANNEL_MESSAGE_WITH_SOURCE : Int := 4

/-- Constant `InteractionResponseType.MODAL`. -/
def MODAL : Int := 9

end InteractionResponseType

namespace MessageComponentTypes

/-- Constant `MessageComponentTypes.ACTION_ROW`. -/
def ACTION_ROW : Int := 1

/-- Constant `MessageComponentTypes.BUTTON`. -/
def BUTTON : Int := 2

/-- Constant `MessageComponentTypes.STRING_SELECT`. -/
def STRING_SELECT : Int := 3

/-- Constant `MessageComponentTypes.INPUT_TEXT`. -/
def INPUT_TEXT : Int := 4

end MessageComponentTypes

/-- Constant `ButtonStyleTypes.SECONDARY` from `discord-interactions`. -/
def ButtonStyleTypes.SECONDARY : Int := 2

/-- Constant `TextStyleTypes.SHORT` from `discord-interactions`. -/
def TextStyleTypes.SHORT : Int := 1

/-- Constant `InteractionResponseFlags.EPHEMERAL` from `discord-interactions`. -/
def InteractionResponseFlags.EPHEMERAL : Int := 64

/-- The body of an HTTP response: plain text (`new Response(text, ...)`)
or a JSON value (`new JsonResponse(body, ...)`, which serialises it). -/
inductive RespBody where
  | text : String → RespBody
  | json : JsonValue → RespBody
deriving Repr

/-- An HTTP response as constructed by the handler. -/
structure HttpResponse where
  status : Nat
  body : RespBody
deriving Repr

/-- Constructor call `new JsonResponse(body)` with the default init: status 200. -/
def jsonResponse (body : JsonValue) : HttpResponse :=
  { status := 200, body := .json body }

/-- Constructor call `new JsonResponse(body, ...)` with an explicit status. -/
def jsonResponseWithStatus (body : JsonValue) (status : Nat) : HttpResponse :=
  { status := status, body := .json body }

/-- The worker's environment bindings used by the handler. -/
structure Env where
  DISCORD_APPLICATION_ID : String
  DISCORD_PUBLIC_KEY : String
deriving Repr, DecidableEq

/-- An inbound POST request as seen by `verifyDiscordRequest`: the two
signature headers (`none` when absent) and the raw body text. -/
structure Request where
  signature : Option String
  timestamp : Option String
  body : String
deriving Repr, DecidableEq

/-- The object returned by `verifyDiscordRequest`: `{ isValid: false }`
(the `interaction` property absent, i.e. `undefined`) or
`{ interaction, isValid: true }`. -/
structure VerifyResult where
  isValid : Bool
  interaction : Option JsonValue
deriving Repr

/-- JavaScript truthiness of a header value returned by `headers.get`:
`null` (absent) and the empty string are falsy. -/
def headerTruthy : Option String → Bool
  | none => false
  | some s => s != ""

/-- Modelled from the spec: the `discord-interactions` library's
`verifyKey(body, signature, timestamp, publicKey)` is not part of this
repository's source. Per §4.1 the signature is computed over the
concatenation of the timestamp and the raw body bytes with an asymmetric
scheme; this ideal functional model accepts exactly the signature that
the key's owner would have produced over that concatenation. -/
def verifyKeySpec (body signature timestamp publicKey : String) : Bool :=
  signature == publicKey ++ (timestamp ++ body)

/-- A command's metadata, as exported by `commands.js`. -/
structure Command where
  name : String
deriving Repr, DecidableEq

/-- Modelled from the spec: `commands.js` is not included in the source
tree; §8 names the first command `"aww"`. -/
def AWW_COMMAND : Command := { name := "aww" }

/-- Modelled from the spec: `commands.js` is not included in the source
tree; §8 names the second command `"invite"`. -/
def INVITE_COMMAND : Command := { name := "invite" }

/-- The local `const isValidRequest = signature && timestamp &&
verifyKey(body, signature, timestamp, env.DISCORD_PUBLIC_KEY)`
(server.js lines 210–213), with JavaScript's short-circuiting `&&` made
explicit: an absent (`null`) or empty header value is falsy and stops
the chain before `vk` is ever consulted. -/
def isValidRequest (vk : String → String → String → String → Bool)
    (request : Request) (env : Env) : Bool :=
  match request.signature with
  | none => false
  | some signature =>
    if signature = "" then false
    else
      match request.timestamp with
      | none => false
      | some timestamp =>
        if timestamp = "" then false
        else vk request.body signature timestamp env.DISCORD_PUBLIC_KEY

/-- Function `verifyDiscordRequest(request, env)` (server.js lines 206–219).
`vk` is the external `verifyKey` and `parse` the platform's
`JSON.parse`. -/
def verifyDiscordRequest (vk : String → String → String → String → Bool)
    (parse : String → JsonValue) (request : Request) (env : Env) :
    VerifyResult :=
  if isValidRequest vk request env then
    { interaction := some (parse request.body), isValid := true }
  else
    { isValid := false, interaction := none }

/-- JavaScript property read `receiver[key]` where the receiver is a
value (never `undefined`): `none` models the thrown `TypeError` when the
receiver is `null`; `some none` is `undefined` (absent property or
non-object receiver); `some (some v)` is the property's value. -/
def jsProp : JsonValue → String → Option (Option JsonValue)
  | .jnull, _ => none
  | .jobj fields, key => some (lookupField fields key)
  | _, _ => some none

/-- Strict equality `v === t` between a possibly-undefined property value
and a number literal. -/
def numIs (v : Option JsonValue) (t : Int) : Bool :=
  match v with
  | some (.jnum n) => n == t
  | _ => false

/-- Strict equality `v === s` between a possibly-undefined property value
and a string literal. -/
def strIs (v : Option JsonValue) (s : String) : Bool :=
  match v with
  | some (.jstr t) => t == s
  | _ => false

/-- The PONG acknowledgement body (server.js lines 55–57). -/
def pongBody : JsonValue :=
  .jobj [("type", .jnum InteractionResponseType.PONG)]

/-- The `{ error: 'Unknown Type' }` body (server.js lines 153 and 202). -/
def unknownTypeBody : JsonValue :=
  .jobj [("error", .jstr "Unknown Type")]

/-- The body of the aww-command response (server.js lines 64–139). -/
def awwResponseBody : JsonValue :=
  .jobj [
    ("type", .jnum InteractionResponseType.CHANNEL_MESSAGE_WITH_SOURCE),
    ("data", .jobj [
      ("embeds", .jarr [
        .jobj [("title", .jstr "1"),
               ("image", .jobj [
                 ("url", .jstr "https://picsum.photos/200/300"),
                 ("width", .jnum 200),
                 ("height", .jnum 300)])],
        .jobj [("title", .jstr "2"),
               ("image", .jobj [
                 ("url", .jstr "https://picsum.photos/200/300"),
                 ("width", .jnum 200),
                 ("height", .jnum 300)])],
        .jobj [("title", .jstr "3"),
               ("image", .jobj [
                 ("url", .jstr "https://picsum.photos/200/300"),
                 ("width", .jnum 200),
                 ("height", .jnum 300)])]]),
      ("components", .jarr [
        .jobj [("type", .jnum MessageComponentTypes.ACTION_ROW),
               ("components", .jarr [
                 .jobj [("type", .jnum MessageComponentTypes.BUTTON),
                        ("style", .jnum ButtonStyleTypes.SECONDARY),
                        ("label", .jstr "Next"),
                        ("custom_id", .jstr "next")],
                 .jobj [("type", .jnum MessageComponentTypes.BUTTON),
                        ("style", .jnum ButtonStyleTypes.SECONDARY),
                        ("label", .jstr "Prev"),
                        ("custom_id", .jstr "prev")]])],
        .jobj [("type", .jnum MessageComponentTypes.ACTION_ROW),
               ("components", .jarr [
                 .jobj [("type", .jnum MessageComponentTypes.STRING_SELECT),
                        ("options", .jarr [
                          .jobj [("label", .jstr "1"), ("value", .jstr "1")],
                          .jobj [("label", .jstr "2"), ("value", .jstr "2")],
                          .jobj [("label", .jstr "3"), ("value", .jstr "3")]]),
                        ("custom_id", .jstr "refine"),
                        ("placeholder", .jstr "Choose an item to refine"),
                        ("min_values", .jnum 1),
                        ("max_values", .jnum 1)]])]])])]

/-- The invite URL (server.js line 143). -/
def INVITE_URL (applicationId : String) : String :=
  "https://discord.com/oauth2/authorize?client_id=" ++ applicationId ++
    "&scope=applications.commands"

/-- The body of the invite-command response (server.js lines 144–150). -/
def inviteResponseBody (env : Env) : JsonValue :=
  .jobj [
    ("type", .jnum InteractionResponseType.CHANNEL_MESSAGE_WITH_SOURCE),
    ("data", .jobj [
      ("content", .jstr (INVITE_URL env.DISCORD_APPLICATION_ID)),
      ("flags", .jnum InteractionResponseFlags.EPHEMERAL)])]

/-- The body of the refine modal response (server.js lines 160–181). -/
def refineModalBody : JsonValue :=
  .jobj [
    ("type", .jnum InteractionResponseType.MODAL),
    ("data", .jobj [
      ("custom_id", .jstr "refine_modal"),
      ("title", .jstr "Refine"),
      ("components", .jarr [
        .jobj [("type", .jnum MessageComponentTypes.ACTION_ROW),
               ("components", .jarr [
                 .jobj [("type", .jnum MessageComponentTypes.INPUT_TEXT),
                        ("custom_id", .jstr "prompt"),
                        ("label", .jstr "Prompt"),
                        ("style", .jnum TextStyleTypes.SHORT),
                        ("min_length", .jnum 1),
                        ("max_length", .jnum 4000)]])]])])]

/-- Body that echoes `JSON.stringify(interaction.data)` as the message
content (server.js lines 183–188 and 193–198). When `data` is absent,
`JSON.stringify(undefined)` is `undefined` and `JsonResponse`'s outer
stringify drops the `content` key. -/
def echoBody (d : Option JsonValue) : JsonValue :=
  .jobj [
    ("type", .jnum InteractionResponseType.CHANNEL_MESSAGE_WITH_SOURCE),
    ("data", .jobj (match d with
      | some v => [("content", .jstr (jsonStringify v))]
      | none => []))]

/-- JavaScript `String.prototype.toLowerCase`, modelled as simple
per-character lowercasing. -/
def toLowerCase (s : String) : String :=
  String.mk (s.data.map Char.toLower)

/-- The `switch (interaction.data.name.toLowerCase())` over the command
table (server.js lines 62–154), applied to the already-lowercased name. -/
def commandSwitch (env : Env) (lname : String) : HttpResponse :=
  if lname = toLowerCase AWW_COMMAND.name then
    jsonResponse awwResponseBody
  else if lname = toLowerCase INVITE_COMMAND.name then
    jsonResponse (inviteResponseBody env)
  else
    jsonResponseWithStatus unknownTypeBody 400

/-- The dispatch on a verified interaction (server.js lines 52–202): the
chain of `interaction.type` tests and the two inner switches. `none`
models a thrown `TypeError`. This code runs only after the 401 gate, so
its argument is always a truthy value in reachable executions. The
`console.error` on the fallthrough path (line 201) is a log side effect
and is not modelled. -/
def dispatchInteraction (env : Env) (interaction : JsonValue) :
    Option HttpResponse :=
  match jsProp interaction "type" with
  | none => none
  | some ty =>
    if numIs ty InteractionType.PING then
      some (jsonResponse pongBody)
    else if numIs ty InteractionType.APPLICATION_COMMAND then
      match jsProp interaction "data" with
      | none => none
      | some none => none
      | some (some d) =>
        match jsProp d "name" with
        | none => none
        | some (some (.jstr name)) =>
          some (commandSwitch env (toLowerCase name))
        | some _ => none
    else if numIs ty InteractionType.MESSAGE_COMPONENT then
      match jsProp interaction "data" with
      | none => none
      | some none => none
      | some (some d) =>
        match jsProp d "custom_id" with
        | none => none
        | some cid =>
          if strIs cid "refine" then some (jsonResponse refineModalBody)
          else some (jsonResponse (echoBody (some d)))
    else if numIs ty InteractionType.MODAL_SUBMIT then
      match jsProp interaction "data" with
      | none => none
      | some d => some (jsonResponse (echoBody d))
    else
      some (jsonResponseWithStatus unknownTypeBody 400)

/-- The 401 response (server.js line 49). -/
def badSignatureResponse : HttpResponse :=
  { status := 401, body := .text "Bad request signature." }

/-- The POST route handler (server.js lines 43–203): verify, then gate on
`!isValid || !interaction`, then dispatch. -/
def routerPost (vk : String → String → String → String → Bool)
    (parse : String → JsonValue) (request : Request) (env : Env) :
    Option HttpResponse :=
  let r := verifyDiscordRequest vk parse request env
  match r.isValid, r.interaction with
  | true, some interaction =>
    if truthy interaction then dispatchInteraction env interaction
    else some badSignatureResponse
  | true, none => some badSignatureResponse
  | false, _ => some badSignatureResponse

/-- An `APPLICATION_COMMAND` interaction payload carrying a command name,
as the handler reads it. -/
def mkCommandInteraction (name : String) : JsonValue :=
  .jobj [("type", .jnum InteractionType.APPLICATION_COMMAND),
         ("data", .jobj [("name", .jstr name)])]

/-- A `MESSAGE_COMPONENT` interaction payload carrying a component
custom id, as the handler reads it. -/
def mkComponentInteraction (customId : String) : JsonValue :=
  .jobj [("type", .jnum InteractionType.MESSAGE_COMPONENT),
         ("data", .jobj [("custom_id", .jstr customId)])]

/-- The list of embed objects of a response body, empty when absent. -/
def responseEmbeds (body : JsonValue) : List JsonValue :=
  match jget body "data" with
  | some d =>
    match jget d "embeds" with
    | some (.jarr es) => es
    | _ => []
  | none => []

/-- The list of top-level components of a response body. -/
def responseComponents (body : JsonValue) : List JsonValue :=
  match jget body "data" with
  | some d =>
    match jget d "components" with
    | some (.jarr cs) => cs
    | _ => []
  | none => []

/-- The `data.content` string of a response body. -/
def responseContent (body : JsonValue) : Option String :=
  match jget body "data" with
  | some d =>
    match jget d "content" with
    | some (.jstr s) => some s
    | _ => none
  | none => none

/-- The `data.flags` number of a response body. -/
def responseFlags (body : JsonValue) : Option Int :=
  match jget body "data" with
  | some d =>
    match jget d "flags" with
    | some (.jnum n) => some n
    | _ => none
  | none => none

/-- Whether a component is a button with the given label. -/
def isButtonLabeled (lab : String) : JsonValue → Bool
  | .jobj fs =>
    (match lookupField fs "type" with
     | some (.jnum n) => n == MessageComponentTypes.BUTTON
     | _ => false) &&
    (match lookupField fs "label" with
     | some (.jstr l) => l == lab
     | _ => false)
  | _ => false

/-- Whether a component is an action row whose children are exactly a
"Next" button followed by a "Prev" button. -/
def isNextPrevButtonRow : JsonValue → Bool
  | .jobj fs =>
    (match lookupField fs "type" with
     | some (.jnum n) => n == MessageComponentTypes.ACTION_ROW
     | _ => false) &&
    (match lookupField fs "components" with
     | some (.jarr [b1, b2]) =>
       isButtonLabeled "Next" b1 && isButtonLabeled "Prev" b2
     | _ => false)
  | _ => false

/-- Whether a select-menu option has the given label and value. -/
def isOptionLV (lab v : String) : JsonValue → Bool
  | .jobj fs =>
    (match lookupField fs "label" with
     | some (.jstr x) => x == lab
     | _ => false) &&
    (match lookupField fs "value" with
     | some (.jstr x) => x == v
     | _ => false)
  | _ => false

/-- Whether a component is a string-select menu whose options are
exactly 1, 2, 3. -/
def isSelectWithOptions123 : JsonValue → Bool
  | .jobj fs =>
    (match lookupField fs "type" with
     | some (.jnum n) => n == MessageComponentTypes.STRING_SELECT
     | _ => false) &&
    (match lookupField fs "options" with
     | some (.jarr [o1, o2, o3]) =>
       isOptionLV "1" "1" o1 && isOptionLV "2" "2" o2 && isOptionLV "3" "3" o3
     | _ => false)
  | _ => false

/-- Whether a component is an action row one of whose children is the
1-2-3 select menu. -/
def rowHoldsSelect123 : JsonValue → Bool
  | .jobj fs =>
    (match lookupField fs "components" with
     | some (.jarr cs) => cs.any isSelectWithOptions123
     | _ => false)
  | _ => false

/-- Whether a component is a short-style text input with the given
custom id. -/
def isShortTextInput (cid : String) : JsonValue → Bool
  | .jobj fs =>
    (match lookupField fs "type" with
     | some (.jnum n) => n == MessageComponentTypes.INPUT_TEXT
     | _ => false) &&
    (match lookupField fs "style" with
     | some (.jnum n) => n == TextStyleTypes.SHORT
     | _ => false) &&
    (match lookupField fs "custom_id" with
     | some (.jstr x) => x == cid
     | _ => false)
  | _ => false

/-- All components nested one level inside the action rows of a response
body (the modal's input fields live there). -/
def rowChildren (body : JsonValue) : List JsonValue :=
  (responseComponents body).flatMap fun c =>
    match c with
    | .jobj fs =>
      match lookupField fs "components" with
      | some (.jarr cs) => cs
      | _ => []
    | _ => []

/-- The `type` number of a response body. -/
def responseType (body : JsonValue) : Option Int :=
  match jget body "type" with
  | some (.jnum n) => some n
  | _ => none

theorem verify_result_cases (vk : String → String → String → String → Bool)
    (parse : String → JsonValue) (req : Request) (env : Env) :
    verifyDiscordRequest vk parse req env =
        { isValid := true, interaction := some (parse req.body) } ∨
    verifyDiscordRequest vk parse req env =
        { isValid := false, interaction := none } := by
  unfold verifyDiscordRequest
  split
  · exact Or.inl rfl
  · exact Or.inr rfl

theorem routerPost_of_invalid (vk : String → String → String → String → Bool)
    (parse : String → JsonValue) (req : Request) (env : Env)
    (h : verifyDiscordRequest vk parse req env =
        { isValid := false, interaction := none }) :
    routerPost vk parse req env = some badSignatureResponse := by
  unfold routerPost
  rw [h]

/-- C1: an inbound POST's interaction is never dispatched before its
envelope passes verification — when verification reports failure the
handler answers 401 without reaching any dispatch branch, and the
response is a function of the verification step's output alone, so the
handler obtains the interaction only from that step. -/
theorem C1_no_dispatch_before_verification
    (vk : String → String → String → String → Bool)
    (parse : String → JsonValue) (req : Request) (env : Env) :
    ((verifyDiscordRequest vk parse req env).isValid = false →
      routerPost vk parse req env = some badSignatureResponse) ∧
    (∀ (vk2 : String → String → String → String → Bool)
        (parse2 : String → JsonValue) (req2 : Request),
      verifyDiscordRequest vk2 parse2 req2 env =
          verifyDiscordRequest vk parse req env →
      routerPost vk2 parse2 req2 env = routerPost vk parse req env) := by
  constructor
  · intro h
    rcases verify_result_cases vk parse req env with hv | hv
    · rw [hv] at h
      simp at h
    · exact routerPost_of_invalid vk parse req env hv
  · intro vk2 parse2 req2 heq
    unfold routerPost
    rw [heq]

theorem C1_no_dispatch_before_verification_witness :
    routerPost (fun _ _ _ _ => false) (fun _ => .jobj [("type", .jnum 1)])
      { signature := some "sig", timestamp := some "ts", body := "b" }
      { DISCORD_APPLICATION_ID := "app", DISCORD_PUBLIC_KEY := "pk" } =
      some badSignatureResponse :=
  (C1_no_dispatch_before_verification _ _ _ _).1 rfl

/-- C2: a POST whose signature is invalid — in particular one whose body
was altered after signing — is answered with status 401 and plain-text
body "Bad request signature.", and (with the spec-modelled signature
scheme) verification fails for every tampered body. -/
theorem C2_invalid_signature_401_and_tamper_detection :
    (∀ (parse : String → JsonValue) (req : Request) (env : Env)
        (s t : String),
      req.signature = some s → req.timestamp = some t →
      verifyKeySpec req.body s t env.DISCORD_PUBLIC_KEY = false →
      routerPost verifyKeySpec parse req env = some badSignatureResponse) ∧
    (∀ (body body2 sg ts pk : String),
      verifyKeySpec body sg ts pk = true → body2 ≠ body →
      verifyKeySpec body2 sg ts pk = false) := by
  constructor
  · intro parse req env s t hs ht hvk
    apply routerPost_of_invalid
    simp [verifyDiscordRequest, isValidRequest, hs, ht, hvk]
  · intro body body2 sg ts pk h1 h2
    simp only [verifyKeySpec, beq_iff_eq] at h1
    simp only [verifyKeySpec, beq_eq_false_iff_ne, ne_eq]
    intro hEq
    apply h2
    have h3 : pk ++ (ts ++ body2) = pk ++ (ts ++ body) := hEq.symm.trans h1
    have h4 := congrArg String.data h3
    simp only [String.data_append] at h4
    have h5 := (List.append_right_inj pk.data).mp h4
    have h6 := (List.append_right_inj ts.data).mp h5
    exact String.ext h6

theorem C2_invalid_signature_401_and_tamper_detection_witness :
    routerPost verifyKeySpec (fun _ => .jobj [("type", .jnum 1)])
      { signature := some "wrong", timestamp := some "ts", body := "b" }
      { DISCORD_APPLICATION_ID := "app", DISCORD_PUBLIC_KEY := "pk" } =
      some badSignatureResponse ∧
    verifyKeySpec "tampered" "pktsb" "ts" "pk" = false :=
  ⟨C2_invalid_signature_401_and_tamper_detection.1 _ _ _ "wrong" "ts"
      rfl rfl rfl,
    C2_invalid_signature_401_and_tamper_detection.2 "b" "tampered"
      "pktsb" "ts" "pk" rfl (by decide)⟩

/-- C3: when either signature header is missing, `verifyDiscordRequest`
returns failure with no interaction, and the result does not depend on
the cryptographic verification function at all (the `&&` chain
short-circuits before invoking it). -/
theorem C3_missing_header_fails_without_crypto
    (parse : String → JsonValue) (req : Request) (env : Env)
    (h : req.signature = none ∨ req.timestamp = none) :
    ∀ (vk : String → String → String → String → Bool),
      verifyDiscordRequest vk parse req env =
        { isValid := false, interaction := none } := by
  intro vk
  rcases h with h | h
  · simp [verifyDiscordRequest, isValidRequest, h]
  · cases hs : req.signature with
    | none => simp [verifyDiscordRequest, isValidRequest, hs]
    | some s => simp [verifyDiscordRequest, isValidRequest, hs, h]

theorem C3_missing_header_fails_without_crypto_witness :
    verifyDiscordRequest (fun _ _ _ _ => true) (fun _ => .jnull)
      { signature := none, timestamp := some "ts", body := "b" }
      { DISCORD_APPLICATION_ID := "app", DISCORD_PUBLIC_KEY := "pk" } =
      { isValid := false, interaction := none } :=
  C3_missing_header_fails_without_crypto _ _ _ (Or.inl rfl) _

/-- C4: a verified PING interaction (type 1) is answered with status 200
and JSON body exactly `{"type": 1}` — the PONG acknowledgement and no
other field. -/
theorem C4_ping_yields_pong
    (vk : String → String → String → String → Bool)
    (parse : String → JsonValue) (req : Request) (env : Env)
    (i : JsonValue)
    (hv : verifyDiscordRequest vk parse req env =
        { isValid := true, interaction := some i })
    (ht : jget i "type" = some (.jnum InteractionType.PING)) :
    routerPost vk parse req env =
      some { status := 200, body := .json (.jobj [("type", .jnum 1)]) } := by
  cases i with
  | jobj fs =>
    have ht' : lookupField fs "type" = some (.jnum 1) := by
      simpa [jget, InteractionType.PING] using ht
    unfold routerPost
    rw [hv]
    simp [truthy, dispatchInteraction, jsProp, ht', numIs, jsonResponse,
      pongBody, InteractionResponseType.PONG, InteractionType.PING]
  | jnull => simp [jget] at ht
  | jbool b => simp [jget] at ht
  | jnum n => simp [jget] at ht
  | jstr s => simp [jget] at ht
  | jarr xs => simp [jget] at ht

theorem C4_ping_yields_pong_witness :
    routerPost (fun _ _ _ _ => true) (fun _ => .jobj [("type", .jnum 1)])
      { signature := some "sig", timestamp := some "ts", body := "b" }
      { DISCORD_APPLICATION_ID := "app", DISCORD_PUBLIC_KEY := "pk" } =
      some { status := 200, body := .json (.jobj [("type", .jnum 1)]) } :=
  C4_ping_yields_pong _ _ _ _ (.jobj [("type", .jnum 1)]) rfl rfl

/-- C5: command-name lookup is case-insensitive — two verified
APPLICATION_COMMAND interactions whose `data.name` values agree after
lowercasing (in particular, any letter-casing of a known command name
versus its canonical casing) receive the same response. -/
theorem C5_command_lookup_case_insensitive
    (vk : String → String → String → String → Bool)
    (parse parse2 : String → JsonValue) (req req2 : Request) (env : Env)
    (s t : String)
    (hv : verifyDiscordRequest vk parse req env =
        { isValid := true, interaction := some (mkCommandInteraction s) })
    (hv2 : verifyDiscordRequest vk parse2 req2 env =
        { isValid := true, interaction := some (mkCommandInteraction t) })
    (hcase : toLowerCase s = toLowerCase t) :
    routerPost vk parse req env = routerPost vk parse2 req2 env := by
  unfold routerPost
  rw [hv, hv2]
  show some (commandSwitch env (toLowerCase s)) =
    some (commandSwitch env (toLowerCase t))
  rw [hcase]

theorem C5_command_lookup_case_insensitive_witness :
    routerPost (fun _ _ _ _ => true) (fun _ => mkCommandInteraction "InViTe")
      { signature := some "sig", timestamp := some "ts", body := "b" }
      { DISCORD_APPLICATION_ID := "app", DISCORD_PUBLIC_KEY := "pk" } =
    routerPost (fun _ _ _ _ => true) (fun _ => mkCommandInteraction "invite")
      { signature := some "sig", timestamp := some "ts", body := "b" }
      { DISCORD_APPLICATION_ID := "app", DISCORD_PUBLIC_KEY := "pk" } :=
  C5_command_lookup_case_insensitive _ _ _ _ _ _ "InViTe" "invite"
    rfl rfl rfl

/-- C10: when signature verification succeeds but the body parses to a
falsy JSON value (`null`, `false`, `0` or `""`), the handler answers
with the authentication-failure response — status 401 and body
"Bad request signature." — not a 400 parse error. -/
theorem C10_falsy_parsed_body_401
    (vk : String → String → String → String → Bool)
    (parse : String → JsonValue) (req : Request) (env : Env)
    (hvalid : isValidRequest vk req env = true)
    (hfalsy : truthy (parse req.body) = false) :
    routerPost vk parse req env = some badSignatureResponse := by
  have hv : verifyDiscordRequest vk parse req env =
      { isValid := true, interaction := some (parse req.body) } := by
    simp [verifyDiscordRequest, hvalid]
  unfold routerPost
  rw [hv]
  simp [hfalsy]

theorem C10_falsy_parsed_body_401_witness :
    routerPost (fun _ _ _ _ => true) (fun _ => .jnull)
      { signature := some "sig", timestamp := some "ts", body := "null" }
      { DISCORD_APPLICATION_ID := "app", DISCORD_PUBLIC_KEY := "pk" } =
      some badSignatureResponse :=
  C10_falsy_parsed_body_401 _ _ _ _ rfl rfl

theorem numIs_eq_true_iff (v : Option JsonValue) (t : Int) :
    numIs v t = true ↔ v = some (.jnum t) := by
  cases v with
  | none => simp [numIs]
  | some j => cases j <;> simp [numIs]

theorem jsProp_eq_jget (i : JsonValue) (h : i ≠ .jnull) (key : String) :
    jsProp i key = some (jget i key) := by
  cases i with
  | jnull => exact absurd rfl h
  | jbool b => rfl
  | jnum n => rfl
  | jstr s => rfl
  | jarr xs => rfl
  | jobj fs => rfl

/-- C6: a verified APPLICATION_COMMAND interaction naming the aww
command receives the fixed aww response, whose data holds exactly 3
embed objects, exactly one action row holding the "Next"/"Prev" button
pair, and a select menu with options 1, 2, 3 among its components. -/
theorem C6_aww_embeds_and_components
    (vk : String → String → String → String → Bool)
    (parse : String → JsonValue) (req : Request) (env : Env) (s : String)
    (hv : verifyDiscordRequest vk parse req env =
        { isValid := true, interaction := some (mkCommandInteraction s) })
    (hname : toLowerCase s = AWW_COMMAND.name) :
    routerPost vk parse req env = some (jsonResponse awwResponseBody) ∧
    (responseEmbeds awwResponseBody).length = 3 ∧
    (responseComponents awwResponseBody).countP isNextPrevButtonRow = 1 ∧
    (responseComponents awwResponseBody).any rowHoldsSelect123 = true := by
  refine ⟨?_, rfl, rfl, rfl⟩
  unfold routerPost
  rw [hv]
  show some (commandSwitch env (toLowerCase s)) =
    some (jsonResponse awwResponseBody)
  rw [hname]
  rfl

theorem C6_aww_embeds_and_components_witness :
    routerPost (fun _ _ _ _ => true) (fun _ => mkCommandInteraction "Aww")
      { signature := some "sig", timestamp := some "ts", body := "b" }
      { DISCORD_APPLICATION_ID := "app", DISCORD_PUBLIC_KEY := "pk" } =
      some (jsonResponse awwResponseBody) ∧
    (responseEmbeds awwResponseBody).length = 3 :=
  have h := C6_aww_embeds_and_components (fun _ _ _ _ => true)
    (fun _ => mkCommandInteraction "Aww")
    { signature := some "sig", timestamp := some "ts", body := "b" }
    { DISCORD_APPLICATION_ID := "app", DISCORD_PUBLIC_KEY := "pk" }
    "Aww" rfl rfl
  ⟨h.1, h.2.1⟩

/-- C7: a verified APPLICATION_COMMAND interaction naming the invite
command receives the invite response, whose content is a URL containing
`client_id=<the configured application id>` and which carries the
ephemeral flag. -/
theorem C7_invite_url_and_ephemeral
    (vk : String → String → String → String → Bool)
    (parse : String → JsonValue) (req : Request) (env : Env) (s : String)
    (hv : verifyDiscordRequest vk parse req env =
        { isValid := true, interaction := some (mkCommandInteraction s) })
    (hname : toLowerCase s = INVITE_COMMAND.name) :
    routerPost vk parse req env =
      some (jsonResponse (inviteResponseBody env)) ∧
    responseContent (inviteResponseBody env) =
      some ("https://discord.com/oauth2/authorize?" ++
        ("client_id=" ++ env.DISCORD_APPLICATION_ID) ++
        "&scope=applications.commands") ∧
    responseFlags (inviteResponseBody env) =
      some InteractionResponseFlags.EPHEMERAL := by
  refine ⟨?_, ?_, rfl⟩
  · unfold routerPost
    rw [hv]
    show some (commandSwitch env (toLowerCase s)) =
      some (jsonResponse (inviteResponseBody env))
    rw [hname]
    rfl
  · have hc : responseContent (inviteResponseBody env) =
        some (INVITE_URL env.DISCORD_APPLICATION_ID) := rfl
    rw [hc, INVITE_URL, ← String.append_assoc]
    rfl

theorem C7_invite_url_and_ephemeral_witness :
    routerPost (fun _ _ _ _ => true) (fun _ => mkCommandInteraction "INVITE")
      { signature := some "sig", timestamp := some "ts", body := "b" }
      { DISCORD_APPLICATION_ID := "app123", DISCORD_PUBLIC_KEY := "pk" } =
      some (jsonResponse (inviteResponseBody
        { DISCORD_APPLICATION_ID := "app123", DISCORD_PUBLIC_KEY := "pk" })) ∧
    responseContent (inviteResponseBody
        { DISCORD_APPLICATION_ID := "app123", DISCORD_PUBLIC_KEY := "pk" }) =
      some ("https://discord.com/oauth2/authorize?" ++
        ("client_id=" ++ "app123") ++ "&scope=applications.commands") :=
  have h := C7_invite_url_and_ephemeral (fun _ _ _ _ => true)
    (fun _ => mkCommandInteraction "INVITE")
    { signature := some "sig", timestamp := some "ts", body := "b" }
    { DISCORD_APPLICATION_ID := "app123", DISCORD_PUBLIC_KEY := "pk" }
    "INVITE" rfl rfl
  ⟨h.1, h.2.1⟩

/-- C8: a verified MESSAGE_COMPONENT interaction with custom id
"refine" receives a modal-typed response containing exactly one
component nested in its action rows, a short-style text input whose
custom id is "prompt". -/
theorem C8_refine_opens_prompt_modal
    (vk : String → String → String → String → Bool)
    (parse : String → JsonValue) (req : Request) (env : Env)
    (hv : verifyDiscordRequest vk parse req env =
        { isValid := true,
          interaction := some (mkComponentInteraction "refine") }) :
    routerPost vk parse req env = some (jsonResponse refineModalBody) ∧
    responseType refineModalBody = some InteractionResponseType.MODAL ∧
    (rowChildren refineModalBody).countP (isShortTextInput "prompt") = 1 ∧
    (rowChildren refineModalBody).length = 1 := by
  refine ⟨?_, rfl, rfl, rfl⟩
  unfold routerPost
  rw [hv]
  rfl

theorem C8_refine_opens_prompt_modal_witness :
    routerPost (fun _ _ _ _ => true)
      (fun _ => mkComponentInteraction "refine")
      { signature := some "sig", timestamp := some "ts", body := "b" }
      { DISCORD_APPLICATION_ID := "app", DISCORD_PUBLIC_KEY := "pk" } =
      some (jsonResponse refineModalBody) :=
  (C8_refine_opens_prompt_modal (fun _ _ _ _ => true)
    (fun _ => mkComponentInteraction "refine")
    { signature := some "sig", timestamp := some "ts", body := "b" }
    { DISCORD_APPLICATION_ID := "app", DISCORD_PUBLIC_KEY := "pk" } rfl).1

/-- C9: a verified APPLICATION_COMMAND interaction whose name matches no
known command, and a verified interaction whose type discriminant is
none of PING, APPLICATION_COMMAND, MESSAGE_COMPONENT or MODAL_SUBMIT,
are both answered with status 400 and JSON body
`{"error": "Unknown Type"}`. -/
theorem C9_unknown_command_or_type_400 :
    (∀ (vk : String → String → String → String → Bool)
        (parse : String → JsonValue) (req : Request) (env : Env)
        (s : String),
      verifyDiscordRequest vk parse req env =
          { isValid := true, interaction := some (mkCommandInteraction s) } →
      toLowerCase s ≠ toLowerCase AWW_COMMAND.name →
      toLowerCase s ≠ toLowerCase INVITE_COMMAND.name →
      routerPost vk parse req env =
        some { status := 400, body := .json unknownTypeBody }) ∧
    (∀ (vk : String → String → String → String → Bool)
        (parse : String → JsonValue) (req : Request) (env : Env)
        (i : JsonValue),
      verifyDiscordRequest vk parse req env =
          { isValid := true, interaction := some i } →
      truthy i = true →
      jget i "type" ≠ some (.jnum InteractionType.PING) →
      jget i "type" ≠ some (.jnum InteractionType.APPLICATION_COMMAND) →
      jget i "type" ≠ some (.jnum InteractionType.MESSAGE_COMPONENT) →
      jget i "type" ≠ some (.jnum InteractionType.MODAL_SUBMIT) →
      routerPost vk parse req env =
        some { status := 400, body := .json unknownTypeBody }) := by
  constructor
  · intro vk parse req env s hv h1 h2
    unfold routerPost
    rw [hv]
    show some (commandSwitch env (toLowerCase s)) = _
    unfold commandSwitch
    rw [if_neg h1, if_neg h2]
    rfl
  · intro vk parse req env i hv htr h1 h2 h3 h4
    have hnn : i ≠ .jnull := by
      intro hi
      rw [hi] at htr
      simp [truthy] at htr
    have e1 : numIs (jget i "type") InteractionType.PING = false :=
      Bool.eq_false_iff.mpr (mt (numIs_eq_true_iff _ _).mp h1)
    have e2 : numIs (jget i "type") InteractionType.APPLICATION_COMMAND
        = false :=
      Bool.eq_false_iff.mpr (mt (numIs_eq_true_iff _ _).mp h2)
    have e3 : numIs (jget i "type") InteractionType.MESSAGE_COMPONENT
        = false :=
      Bool.eq_false_iff.mpr (mt (numIs_eq_true_iff _ _).mp h3)
    have e4 : numIs (jget i "type") InteractionType.MODAL_SUBMIT = false :=
      Bool.eq_false_iff.mpr (mt (numIs_eq_true_iff _ _).mp h4)
    unfold routerPost
    rw [hv]
    simp only [htr]
    show dispatchInteraction env i = _
    unfold dispatchInteraction
    rw [jsProp_eq_jget i hnn]
    simp [e1, e2, e3, e4, jsonResponseWithStatus]

theorem C9_unknown_command_or_type_400_witness :
    routerPost (fun _ _ _ _ => true) (fun _ => mkCommandInteraction "nope")
      { signature := some "sig", timestamp := some "ts", body := "b" }
      { DISCORD_APPLICATION_ID := "app", DISCORD_PUBLIC_KEY := "pk" } =
      some { status := 400, body := .json unknownTypeBody } ∧
    routerPost (fun _ _ _ _ => true) (fun _ => .jobj [("type", .jnum 4)])
      { signature := some "sig", timestamp := some "ts", body := "b" }
      { DISCORD_APPLICATION_ID := "app", DISCORD_PUBLIC_KEY := "pk" } =
      some { status := 400, body := .json unknownTypeBody } :=
  ⟨C9_unknown_command_or_type_400.1 _ _ _ _ "nope" rfl
      (by simp [toLowerCase, AWW_COMMAND]) (by simp [toLowerCase, INVITE_COMMAND]),
    C9_unknown_command_or_type_400.2 _ _ _ _ (.jobj [("type", .jnum 4)]) rfl rfl
      (by simp [jget, lookupField, InteractionType.PING])
      (by simp [jget, lookupField, InteractionType.APPLICATION_COMMAND])
      (by simp [jget, lookupField, InteractionType.MESSAGE_COMPONENT])
      (by simp [jget, lookupField, InteractionType.MODAL_SUBMIT])⟩
